import Mathlib

/-!
Verification of the Etecplus-giveaways application (`src/streamlit_app.py`).

The file shallowly embeds the logic the specification talks about:

* CSV ingestion and validation (`upload_page`, lines 89-118): the dtype
  `pd.read_csv` infers for the coordinates column, the column check, the
  coordinate-cell splitting (`str.split` with the regex pattern of
  whitespace, comma, whitespace and `n=1`), numeric coercion, and the
  session-state update.
* the Haversine distance (`calculate_distance`, lines 61-72), over the reals.
* winner selection (`map_page`, lines 156-162): `idxmin` over the
  `distance_km` column, first occurrence of the minimum.

The leaderboard sort of `winner_page` (line 222, `sort_values` under the
library's default sort kind) is not modelled: the order it gives records of
equal distance is a property of the backing sort implementation, which is
outside this repository.

Machine floats are modelled by the rationals for the parsing/selection logic
(the selection claims are order-theoretic and do not depend on rounding) and
by the reals for the trigonometric distance.  Missing values (pandas `NaN`
produced for an absent second split part) are modelled by `Option`.
-/

deriving instance DecidableEq for Except

namespace Giveaway

/-- Characters matched by the regex class of whitespace used in the split
pattern of line 97 (space, tab, newline, carriage return, vertical tab,
form feed). -/
def wsChar (c : Char) : Bool :=
  c = ' ' || c = '\t' || c = '\n' || c = '\r' || c = Char.ofNat 11 || c = Char.ofNat 12

/-- Split a character list at its first comma: `none` when the list has no
comma, otherwise the parts strictly before and strictly after the first
comma. -/
def splitFirstComma : List Char → Option (List Char × List Char)
  | [] => none
  | c :: cs =>
    if c = ',' then some ([], cs)
    else
      match splitFirstComma cs with
      | none => none
      | some (a, b) => some (c :: a, b)

/-- Drop the maximal run of whitespace at the end of a character list. -/
def dropTrailingWs (l : List Char) : List Char :=
  (l.reverse.dropWhile wsChar).reverse

/-- Drop the maximal run of whitespace at the front of a character list. -/
def dropLeadingWs (l : List Char) : List Char :=
  l.dropWhile wsChar

/-- Line 97: `participants['coordinates'].str.split(r'\s*,\s*', n=1, expand=True)`
applied to one cell.  With `n=1` at most one split happens, at the first
comma; the leftmost regex match consumes the whitespace run adjacent to that
comma on both sides.  A cell without a comma stays a single unmodified part
(second component `none`, which pandas materialises as a missing value when
other rows produced two parts). -/
def splitCoord (s : String) : String × Option String :=
  match splitFirstComma s.toList with
  | none => (s, none)
  | some (a, b) => ((dropTrailingWs a).asString, some ((dropLeadingWs b).asString))

/-- Numeric value of a digit string. -/
def digitsVal (l : List Char) : ℕ :=
  l.foldl (fun n c => 10 * n + (c.toNat - '0'.toNat)) 0

/-- Whether every character is a decimal digit. -/
def allDigits (l : List Char) : Bool :=
  l.all Char.isDigit

/-- The exact value of a parsed decimal literal: a signed mantissa together
with a power-of-ten scale, denoting `num / 10 ^ scale`.  A decimal literal is
kept in this exact form (the claims on parsed values are stated "modulo
IEEE-754 rounding of the decimal literals", i.e. about the exact decimal
value). -/
structure DecLit where
  num : ℤ
  scale : ℕ
deriving DecidableEq

/-- The rational value a parsed decimal literal denotes. -/
def DecLit.toRat (d : DecLit) : ℚ :=
  (d.num : ℚ) / 10 ^ d.scale

/-- Unsigned decimal literal: digits with an optional fractional part.
Yields the exact mantissa/scale pair. -/
def parseUnsigned (cs : List Char) : Option (ℕ × ℕ) :=
  match cs.splitOn '.' with
  | [intPart] =>
    if intPart ≠ [] ∧ allDigits intPart = true then some (digitsVal intPart, 0) else none
  | [intPart, fracPart] =>
    if (intPart ≠ [] ∨ fracPart ≠ []) ∧ allDigits intPart = true ∧ allDigits fracPart = true then
      some (digitsVal intPart * 10 ^ fracPart.length + digitsVal fracPart, fracPart.length)
    else none
  | _ => none

/-- Numeric coercion of one string cell, as `pd.to_numeric` performs it on
lines 102-103: surrounding whitespace is ignored, an optional sign precedes a
plain decimal literal.  Modeling note: restricted to plain decimal literals,
the only numeric forms the claims exercise; exponent and infinity forms are
outside the scope of every claim. -/
def parseFloat (s : String) : Option DecLit :=
  match dropTrailingWs (dropLeadingWs s.toList) with
  | [] => none
  | c :: rest =>
    if c = '-' then (parseUnsigned rest).map (fun p => ⟨-(p.1 : ℤ), p.2⟩)
    else if c = '+' then (parseUnsigned rest).map (fun p => ⟨(p.1 : ℤ), p.2⟩)
    else (parseUnsigned (c :: rest)).map (fun p => ⟨(p.1 : ℤ), p.2⟩)

/-- The error outcomes of the ingestion path of `upload_page` (lines 89-118):
the explicit message for a wrong column list (line 94), the explicit message
for a wrong split shape (line 99), and the two exceptions caught by the
handler of lines 117-118 — the `AttributeError` raised by the `.str`
accessor of line 97 when the coordinates column was read with a numeric
dtype, and the `ValueError` raised by `pd.to_numeric` (lines 102-103) on a
non-numeric string. -/
inductive IngestError
  | schemaError
  | formatError
  | attributeError
  | valueError
deriving DecidableEq

/-- One ingested participant row: `name`, `latitude`, `longitude`, the latter
two `none` when the corresponding cell was missing (pandas `NaN`), stored in
exact decimal form. -/
structure Row where
  name : String
  latitude : Option DecLit
  longitude : Option DecLit
deriving DecidableEq

/-- An uploaded file after CSV field parsing: the header names and the data
rows, each row a list of field strings.  Rows are assumed to carry exactly as
many fields as the header; the `pd.read_csv` index-promotion behaviour for
ragged rows is exercised by no claim. -/
structure CsvFile where
  header : List String
  rows : List (List String)

/-- Number of columns of the expanded split frame (`coord_split.shape[1]`,
line 98): with `n=1` the frame has two columns exactly when some row produced
a second part, and one column when no row did.  An empty frame yields no
columns; every claim only relies on the empty shape being different from
two. -/
def coordShapeCols (l : List (String × Option String)) : ℕ :=
  if l.isEmpty then 0 else if l.any (fun p => p.2.isSome) then 2 else 1

/-- Numeric coercion of an optional cell: a missing value stays missing
(`to_numeric` maps `NaN` to `NaN`), an unparsable string raises. -/
def toNumeric : Option String → Except IngestError (Option DecLit)
  | none => Except.ok none
  | some s =>
    match parseFloat s with
    | some q => Except.ok (some q)
    | none => Except.error IngestError.valueError

/-- Numeric coercion of one data row after the split. -/
def ingestRow (r : List String) : Except IngestError Row :=
  let c := splitCoord (r.getD 1 "")
  do
    let lat ← toNumeric (some c.1)
    let lon ← toNumeric c.2
    Except.ok { name := r.getD 0 "", latitude := lat, longitude := lon }

/-- The validation pipeline of `upload_page` (lines 91-103).  The column
list must be exactly `name`, `coordinates` (line 93).  `pd.read_csv`
(line 91) infers the dtype of the coordinates column: a nonempty column
whose every cell is a numeric literal is stored with a numeric dtype, and
the `.str` accessor of line 97 then raises `AttributeError` (caught by the
handler of lines 117-118) before any split happens; a column with at least
one non-numeric cell (or no rows) keeps its cells as strings.  For a string
column the split frame must have two columns (line 98) and both parts are
coerced to numbers (lines 102-103).  The code converts the whole first
column before the whole second column; since every conversion failure is
reported through the same catch-all handler, converting row by row is
observably identical.  Cells left empty in the file (read as `NaN` before
any of this) are exercised by no claim and outside this model's scope. -/
def ingest (f : CsvFile) : Except IngestError (List Row) :=
  if f.header ≠ ["name", "coordinates"] then Except.error IngestError.schemaError
  else if f.rows ≠ [] ∧ f.rows.all (fun r => (parseFloat (r.getD 1 "")).isSome) = true then
    Except.error IngestError.attributeError
  else if coordShapeCols (f.rows.map (fun r => splitCoord (r.getD 1 ""))) ≠ 2 then
    Except.error IngestError.formatError
  else f.rows.mapM ingestRow

/-- The three navigation pages of the session state (lines 51-56). -/
inductive Page
  | upload
  | map
  | winner
deriving DecidableEq

/-- The session state seen by `upload_page`: the current page, the stored
participant rows and the stored winner.  The derived `distance_km` column is
a pointwise function of the stored rows (`calculate_distance` applied on
lines 105-110) and carries no further state. -/
structure SessionState where
  page : Page
  participants : Option (List Row)
  winner : Option Row
deriving DecidableEq

/-- State transition of `upload_page` for an uploaded file (lines 89-118): on
any ingestion error an inline message is shown and the function returns with
the session state untouched; on success the participant set is replaced and
the page becomes the map page (lines 112-114).  No other field is written; in
particular the stored winner is left as it was. -/
def upload_page (st : SessionState) (f : CsvFile) : SessionState :=
  match ingest f with
  | Except.error _ => st
  | Except.ok ps => { st with participants := some ps, page := Page.map }

/-- A participant as the winner selection and the leaderboard see it: the
name together with the derived `distance_km` value. -/
structure Participant where
  name : String
  distance_km : ℚ
deriving DecidableEq

/-- The exception raised by `Series.idxmin` on an empty column
(`ValueError: attempt to get argmin of an empty sequence`).  No class named
`EmptyInputError` exists anywhere in the source. -/
inductive DrawError
  | valueError
deriving DecidableEq

/-- Scan for the minimum, keeping the earlier record on ties: the record kept
so far is replaced only by a strictly smaller one. -/
def selectMin (p : Participant) : List Participant → Participant
  | [] => p
  | q :: qs => if q.distance_km < p.distance_km then selectMin q qs else selectMin p qs

/-- Lines 158-160: `participants.loc[participants['distance_km'].idxmin()].copy()`.
`idxmin` returns the label of the first occurrence of the minimum over the
range index, so the selected record is the earliest one attaining the minimal
distance; on an empty frame `idxmin` raises `ValueError`. -/
def drawWinner : List Participant → Except DrawError Participant
  | [] => Except.error DrawError.valueError
  | p :: ps => Except.ok (selectMin p ps)

/-- The session state seen by `map_page`, with the derived distance column in
view. -/
structure MapState where
  page : Page
  participants : Option (List Participant)
  winner : Option Participant
deriving DecidableEq

/-- State transition of the Draw Winner button of `map_page`
(lines 156-162): nothing happens when no participant set is loaded (the guard
of line 157 checks only for `None`); otherwise the winner is computed by
`idxmin` and stored and the page becomes the winner page.  `map_page`
contains no exception handler, so an error raised by `idxmin` escapes
unhandled (`Except.error`). -/
def map_page_draw (st : MapState) : Except DrawError MapState :=
  match st.participants with
  | none => Except.ok st
  | some ps =>
    match drawWinner ps with
    | Except.error e => Except.error e
    | Except.ok w => Except.ok { st with winner := some w, page := Page.winner }

/-- Degrees to radians, line 64-67. -/
noncomputable def radians (x : ℝ) : ℝ :=
  x * Real.pi / 180

/-- Two-argument arctangent as `math.atan2` computes it, by quadrant. -/
noncomputable def atan2 (y x : ℝ) : ℝ :=
  if 0 < x then Real.arctan (y / x)
  else if x < 0 then
    (if 0 ≤ y then Real.arctan (y / x) + Real.pi else Real.arctan (y / x) - Real.pi)
  else if 0 < y then Real.pi / 2
  else if y < 0 then -(Real.pi / 2)
  else 0

/-- Lines 61-72: the Haversine distance in kilometres, exactly as written —
no clamping of the intermediate value `a` appears anywhere in the source. -/
noncomputable def calculate_distance (lat1 lon1 lat2 lon2 : ℝ) : ℝ :=
  let rlat1 := radians lat1
  let rlon1 := radians lon1
  let rlat2 := radians lat2
  let rlon2 := radians lon2
  let dlon := rlon2 - rlon1
  let dlat := rlat2 - rlat1
  let a := Real.sin (dlat / 2) ^ 2 + Real.cos rlat1 * Real.cos rlat2 * Real.sin (dlon / 2) ^ 2
  6371 * 2 * atan2 (Real.sqrt a) (Real.sqrt (1 - a))

/-! Concrete inputs used by the individual claims. -/

/-- The participant sequence with distances `[5.0, 3.0, 3.0, 7.0]` of the
winner-determinism test property. -/
def ex4 : List Participant :=
  [⟨"p0", 5⟩, ⟨"p1", 3⟩, ⟨"p2", 3⟩, ⟨"p3", 7⟩]

/-- A one-row file whose coordinates cell is `"12.34, -56.78"`. -/
def f9 : CsvFile := ⟨["name", "coordinates"], [["P", "12.34, -56.78"]]⟩

/-- A file with the header `name,lat,lon`. -/
def fBadHeader : CsvFile := ⟨["name", "lat", "lon"], []⟩

/-- A session holding a participant set and a winner drawn from it. -/
def stOld : SessionState :=
  ⟨Page.map, some [⟨"old", some ⟨1, 0⟩, some ⟨2, 0⟩⟩], some ⟨"old", some ⟨1, 0⟩, some ⟨2, 0⟩⟩⟩

/-- A fresh valid upload replacing the participant set of `stOld`. -/
def fNew : CsvFile := ⟨["name", "coordinates"], [["new", "3, 4"]]⟩

/-! Theorems. -/

/-- The record kept by the minimum scan over `x :: xs` sits at some index of
`x :: xs`, its distance is minimal, and every record at a strictly earlier
index has a strictly larger distance. -/
theorem selectMin_spec (xs : List Participant) : ∀ x : Participant,
    ∃ i : ℕ, (x :: xs)[i]? = some (selectMin x xs)
      ∧ (∀ (j : ℕ) (q : Participant), (x :: xs)[j]? = some q → (selectMin x xs).distance_km ≤ q.distance_km)
      ∧ (∀ (j : ℕ) (q : Participant), j < i → (x :: xs)[j]? = some q →
          (selectMin x xs).distance_km < q.distance_km) := by
  induction xs with
  | nil =>
    intro x
    refine ⟨0, by simp [selectMin], ?_, ?_⟩
    · intro j q hj
      cases j with
      | zero => simp only [List.getElem?_cons_zero, Option.some.injEq] at hj; simp [selectMin, ← hj]
      | succ j => simp at hj
    · intro j q hji _
      exact absurd hji (Nat.not_lt_zero j)
  | cons y t ih =>
    intro x
    simp only [selectMin]
    by_cases hxy : y.distance_km < x.distance_km
    · rw [if_pos hxy]
      obtain ⟨i, hi, hmin, hfirst⟩ := ih y
      have hsy : (selectMin y t).distance_km ≤ y.distance_km := hmin 0 y (by simp)
      refine ⟨i + 1, by simpa using hi, ?_, ?_⟩
      · intro j q hj
        cases j with
        | zero =>
          simp only [List.getElem?_cons_zero, Option.some.injEq] at hj
          rw [← hj]
          exact le_of_lt (lt_of_le_of_lt hsy hxy)
        | succ j =>
          simp only [List.getElem?_cons_succ] at hj
          exact hmin j q hj
      · intro j q hji hj
        cases j with
        | zero =>
          simp only [List.getElem?_cons_zero, Option.some.injEq] at hj
          rw [← hj]
          exact lt_of_le_of_lt hsy hxy
        | succ j =>
          simp only [List.getElem?_cons_succ] at hj
          exact hfirst j q (Nat.lt_of_succ_lt_succ hji) hj
    · rw [if_neg hxy]
      have hxley : x.distance_km ≤ y.distance_km := le_of_not_lt hxy
      obtain ⟨i, hi, hmin, hfirst⟩ := ih x
      cases i with
      | zero =>
        simp only [List.getElem?_cons_zero, Option.some.injEq] at hi
        refine ⟨0, by simp [← hi], ?_, ?_⟩
        · intro j q hj
          cases j with
          | zero =>
            simp only [List.getElem?_cons_zero, Option.some.injEq] at hj
            rw [← hj, ← hi]
          | succ j =>
            cases j with
            | zero =>
              simp only [List.getElem?_cons_succ, List.getElem?_cons_zero,
                Option.some.injEq] at hj
              rw [← hj, ← hi]
              exact hxley
            | succ j =>
              simp only [List.getElem?_cons_succ] at hj
              exact hmin (j + 1) q (by simpa using hj)
        · intro j q hji _
          exact absurd hji (Nat.not_lt_zero j)
      | succ k =>
        simp only [List.getElem?_cons_succ] at hi
        refine ⟨k + 2, by simpa using hi, ?_, ?_⟩
        · intro j q hj
          cases j with
          | zero =>
            simp only [List.getElem?_cons_zero, Option.some.injEq] at hj
            rw [← hj]
            exact hmin 0 x (by simp)
          | succ j =>
            cases j with
            | zero =>
              simp only [List.getElem?_cons_succ, List.getElem?_cons_zero,
                Option.some.injEq] at hj
              rw [← hj]
              exact le_trans (hmin 0 x (by simp)) hxley
            | succ j =>
              simp only [List.getElem?_cons_succ] at hj
              exact hmin (j + 1) q (by simpa using hj)
        · intro j q hji hj
          cases j with
          | zero =>
            simp only [List.getElem?_cons_zero, Option.some.injEq] at hj
            rw [← hj]
            exact hfirst 0 x (Nat.succ_pos k) (by simp)
          | succ j =>
            cases j with
            | zero =>
              simp only [List.getElem?_cons_succ, List.getElem?_cons_zero,
                Option.some.injEq] at hj
              rw [← hj]
              exact lt_of_lt_of_le (hfirst 0 x (Nat.succ_pos k) (by simp)) hxley
            | succ j =>
              simp only [List.getElem?_cons_succ] at hj
              exact hfirst (j + 1) q (by omega) (by simpa using hj)

/-- Claim C1: the winner selector returns a record of minimal `distance_km`,
and on exact ties the one appearing earliest in the sequence; in particular
on distances `[5.0, 3.0, 3.0, 7.0]` it returns the record at index 1. -/
theorem winner_first_minimum :
    (∀ ps : List Participant, ps ≠ [] →
      ∃ (i : ℕ) (w : Participant), ps[i]? = some w ∧ drawWinner ps = Except.ok w
        ∧ (∀ (j : ℕ) (q : Participant), ps[j]? = some q → w.distance_km ≤ q.distance_km)
        ∧ (∀ (j : ℕ) (q : Participant), j < i → ps[j]? = some q → w.distance_km < q.distance_km))
    ∧ drawWinner ex4 = Except.ok ⟨"p1", 3⟩ ∧ ex4[1]? = some ⟨"p1", 3⟩ := by
  refine ⟨?_, by decide, by decide⟩
  intro ps hps
  match ps, hps with
  | p :: rest, _ =>
    obtain ⟨i, hi, hmin, hfirst⟩ := selectMin_spec rest p
    exact ⟨i, selectMin p rest, hi, rfl, hmin, hfirst⟩

/-- Witness for claim C1 at the participant sequence with distances
`[5.0, 3.0, 3.0, 7.0]`. -/
theorem winner_first_minimum_witness :
    ex4 ≠ []
    ∧ ∃ (i : ℕ) (w : Participant), ex4[i]? = some w ∧ drawWinner ex4 = Except.ok w
        ∧ (∀ (j : ℕ) (q : Participant), ex4[j]? = some q → w.distance_km ≤ q.distance_km)
        ∧ (∀ (j : ℕ) (q : Participant), j < i → ex4[j]? = some q → w.distance_km < q.distance_km) :=
  ⟨by decide, winner_first_minimum.1 ex4 (by decide)⟩

/-- Claim C2 (code bug): invoking the draw on an empty participant sequence
does not fail with an `EmptyInputError` — no such error exists in the source.
`idxmin` raises the pandas `ValueError`, and since `map_page` installs no
handler the fault escapes unhandled from the draw transition. -/
theorem draw_winner_empty_unhandled :
    drawWinner ([] : List Participant) = Except.error DrawError.valueError
    ∧ map_page_draw ⟨Page.map, some [], none⟩ = Except.error DrawError.valueError :=
  ⟨rfl, rfl⟩

/-- Claim C3 (code bug): a successful upload replaces the participant set but
does not clear the stored winner — `upload_page` writes only `participants`
and `page`, so the stale winner drawn from the previous set is retained
against the new data. -/
theorem upload_retains_stale_winner :
    (upload_page stOld fNew).participants = some [⟨"new", some ⟨3, 0⟩, some ⟨4, 0⟩⟩]
    ∧ (upload_page stOld fNew).winner = some ⟨"old", some ⟨1, 0⟩, some ⟨2, 0⟩⟩ := by
  decide

/-- Claim C7: ingestion of a file whose header is not exactly
`name, coordinates` fails with the schema error, and every ingestion failure
leaves the session state — in particular any previously loaded participant
set — completely untouched. -/
theorem schema_error_no_partial_writes :
    (∀ (st : SessionState) (f : CsvFile) (e : IngestError),
        ingest f = Except.error e → upload_page st f = st)
    ∧ (∀ f : CsvFile, f.header = ["name", "lat", "lon"] →
        ingest f = Except.error IngestError.schemaError) := by
  constructor
  · intro st f e h
    unfold upload_page
    rw [h]
  · intro f h
    unfold ingest
    rw [h, if_pos (by decide : (["name", "lat", "lon"] : List String) ≠ ["name", "coordinates"])]

/-- Witness for claim C7: the header `name,lat,lon` concretely triggers the
schema error and leaves a previously loaded session unchanged. -/
theorem schema_error_no_partial_writes_witness :
    ingest fBadHeader = Except.error IngestError.schemaError
    ∧ upload_page stOld fBadHeader = stOld :=
  ⟨schema_error_no_partial_writes.2 fBadHeader rfl,
   schema_error_no_partial_writes.1 stOld fBadHeader IngestError.schemaError
     (schema_error_no_partial_writes.2 fBadHeader rfl)⟩

/-- Claim C8: the distance of any point to itself is exactly zero — both
angle differences vanish, so the Haversine intermediate value is zero and the
arc tangent of zero over one is zero. -/
theorem distance_self_zero (lat lon : ℝ) : calculate_distance lat lon lat lon = 0 := by
  unfold calculate_distance
  simp only [sub_self]
  norm_num [Real.sin_zero, Real.sqrt_zero, Real.sqrt_one, atan2, Real.arctan_zero]

/-- Claim C9: the coordinates cell `"12.34, -56.78"` ingests to latitude
`12.34` and longitude `-56.78` exactly — the whitespace after the comma is
stripped and each part converts to its numeric value. -/
theorem coords_roundtrip :
    ∃ dlat dlon : DecLit,
      ingest f9 = Except.ok [⟨"P", some dlat, some dlon⟩]
      ∧ dlat.toRat = (12.34 : ℚ) ∧ dlon.toRat = (-56.78 : ℚ) := by
  refine ⟨⟨1234, 2⟩, ⟨-5678, 2⟩, by decide, ?_, ?_⟩
  · norm_num [DecLit.toRat]
  · norm_num [DecLit.toRat]

end Giveaway
